import Mathlib

/-!
Verification of the household utility-maximization and tax-calibration model
from inauguralproject.py (functions u_func, totalcost, houseprice, u_max,
avgtax, tg_finder).

Modelling conventions:
* Python floats are modelled by exact rationals; the ideal-arithmetic reading
  of the code.  All tax/cost arithmetic in the source is rational.
* Python division raises ZeroDivisionError when the divisor is zero, so each
  division of the source is modelled by pydiv, returning Option.
* scipy.optimize.minimize_scalar with a Bounded method is an external
  iterative solver; it is modelled as an abstract black box of type Solver.
  Its documented contract (the returned point lies within the given bounds,
  and it minimizes the objective) enters theorems as explicit hypotheses.
* The Python default arguments of the source signatures appear as the
  literal values of defaultCfg; where the source omits arguments at a call
  site those defaults are passed explicitly here, exactly as Python does.
-/

namespace Inaugural

/-- Tax-schedule configuration: interest rate r, general tax rate tg,
progressive tax rate tp, assessment ratio eps, tax cutoff pc. -/
structure TaxConfig where
  r : ℚ
  tg : ℚ
  tp : ℚ
  eps : ℚ
  pc : ℚ
deriving DecidableEq, Repr

/-- Default parameter set of the source signatures
(r=0.03, tg=0.012, tp=0.004, eps=0.5, pc=3). -/
def defaultCfg : TaxConfig := ⟨3/100, 12/1000, 4/1000, 1/2, 3⟩

/-- totalcost (source lines 19-34): pv = ph*eps,
cost = r*ph + tg*pv + tp*max(pv - pc, 0). -/
def totalcost (ph : ℚ) (c : TaxConfig) : ℚ :=
  let pv := ph * c.eps
  c.r * ph + c.tg * pv + c.tp * max (pv - c.pc) 0

/-- Python division: raises ZeroDivisionError when the divisor is zero. -/
def pydiv (a b : ℚ) : Option ℚ :=
  if b = 0 then none else some (a / b)

/-- houseprice (source lines 36-55).  The branch test of line 51 is
`tc > totalcost(pc/eps)` where the call to totalcost passes NO tax
parameters, so Python evaluates the threshold with the signature defaults
(defaultCfg), not with the configuration handed to houseprice.  The guard
on eps models the ZeroDivisionError that Python raises at pc/eps. -/
def houseprice (tc : ℚ) (c : TaxConfig) : Option ℚ :=
  if c.eps = 0 then none
  else if totalcost (c.pc / c.eps) defaultCfg < tc then
    pydiv (tc + c.pc * c.tp) (c.r + c.eps * (c.tg + c.tp))
  else
    pydiv tc (c.r + c.tg * c.eps)

/-- Written from the specification for comparison with the code: the
inverse whose branch threshold is the kink cost computed with the SAME
configuration, totalcost(pc/eps, config). -/
def housepriceSpec (tc : ℚ) (c : TaxConfig) : Option ℚ :=
  if c.eps = 0 then none
  else if totalcost (c.pc / c.eps) c < tc then
    pydiv (tc + c.pc * c.tp) (c.r + c.eps * (c.tg + c.tp))
  else
    pydiv tc (c.r + c.tg * c.eps)

/-- u_func (source lines 5-17): Cobb-Douglas utility c^(1-phi) * h^phi,
a real power expression. -/
noncomputable def u_func (c h phi : ℚ) : ℝ :=
  ((c : ℝ) ^ ((1 : ℝ) - (phi : ℝ))) * ((h : ℝ) ^ ((phi : ℝ)))

/-- Abstract model of scipy.optimize.minimize_scalar with bounded method:
given an objective and the two bounds it returns a point.  Its contract
(membership in the bounds, minimality) is assumed where a claim needs it. -/
def Solver (α : Type) : Type := (ℚ → α) → ℚ → ℚ → ℚ

/-- Objective of u_max (source lines 76-78): minus utility, with
consumption substituted by the budget constraint; here totalcost IS given
the full configuration (line 77 forwards every parameter). -/
noncomputable def u_max_objective (phi m : ℚ) (cfg : TaxConfig) (h : ℚ) : ℝ :=
  -(u_func (m - totalcost h cfg) h phi)

/-- u_max (source lines 57-91).  The solver is called on bounds
(0, houseprice(m, cfg)); if houseprice raises, u_max raises (none).
Line 88 computes c_star = m - totalcost(h_star) passing NO tax parameters,
so Python evaluates it with the signature defaults (defaultCfg), not with
the configuration handed to u_max; this is embedded faithfully. -/
noncomputable def u_max (S : Solver ℝ) (phi m : ℚ) (cfg : TaxConfig) :
    Option (ℚ × ℚ × ℝ) :=
  match houseprice m cfg with
  | none => none
  | some ub =>
    let h_star := S (u_max_objective phi m cfg) 0 ub
    let c_star := m - totalcost h_star defaultCfg
    some (c_star, h_star, u_func c_star h_star phi)

/-- Housing component of the optimizer result (index [1] of the tuple). -/
noncomputable def u_max_h (S : Solver ℝ) (phi m : ℚ) (cfg : TaxConfig) :
    Option ℚ :=
  (u_max S phi m cfg).map (fun t => t.2.1)

/-- Body of the avgtax loop (source lines 178-180): paoh = h_star * eps,
contribution tg*paoh + tp*max(paoh - pc, 0); none models the exception
that propagates if the nested u_max call fails. -/
noncomputable def avgtaxBody (S : Solver ℝ) (phi : ℚ) (cfg : TaxConfig)
    (mi : ℚ) : Option ℚ :=
  match u_max S phi mi cfg with
  | none => none
  | some t =>
    some (cfg.tg * (t.2.1 * cfg.eps) + cfg.tp * max (t.2.1 * cfg.eps - cfg.pc) 0)

/-- Summation loop of avgtax over the budget array. -/
noncomputable def avgtaxLoop (S : Solver ℝ) (phi : ℚ) (cfg : TaxConfig) :
    List ℚ → Option ℚ
  | [] => some 0
  | mi :: rest =>
    match avgtaxBody S phi cfg mi, avgtaxLoop S phi cfg rest with
    | some t, some s => some (t + s)
    | _, _ => none

/-- avgtax (source lines 162-181).  The nested u_max call passes no phi, so
Python uses the default preference 0.3; the final division by ba.size is a
Python division (ZeroDivisionError on an empty population). -/
noncomputable def avgtax (S : Solver ℝ) (ba : List ℚ) (cfg : TaxConfig) :
    Option ℚ :=
  match avgtaxLoop S (3/10) cfg ba with
  | none => none
  | some s => pydiv s (ba.length : ℚ)

/-- The aggregator a caller might intend: identical to avgtax but exposing
the household preference phi.  Written for comparison with avgtax, which
hard-wires the default preference. -/
noncomputable def avgtaxAt (S : Solver ℝ) (phi : ℚ) (ba : List ℚ)
    (cfg : TaxConfig) : Option ℚ :=
  match avgtaxLoop S phi cfg ba with
  | none => none
  | some s => pydiv s (ba.length : ℚ)

/-- Per-household tax formula as the specification words it:
tg*(eps*h) + tp*max(eps*h - pc, 0). -/
def taxpaid (c : TaxConfig) (h : ℚ) : ℚ :=
  c.tg * (c.eps * h) + c.tp * max (c.eps * h - c.pc) 0

/-- Objective of tg_finder (source lines 199-200):
|target - avgtax(ba, r, tg_new, tp, eps, pc)|.  The none branch models the
exception Python would raise inside avgtax; it is never reached on a
non-empty population with well-posed parameters. -/
noncomputable def tgObjective (S : Solver ℝ) (ba : List ℚ)
    (target r tp eps pc : ℚ) (tg_new : ℚ) : ℚ :=
  match avgtax S ba ⟨r, tg_new, tp, eps, pc⟩ with
  | some v => |target - v|
  | none => 0

/-- tg_finder (source lines 183-207): bounded minimization of tgObjective
over tg in [0,1], the solver T modelling the scipy call. -/
noncomputable def tg_finder (S : Solver ℝ) (T : Solver ℚ) (ba : List ℚ)
    (target r tp eps pc : ℚ) : ℚ :=
  T (tgObjective S ba target r tp eps pc) 0 1

/-- A conforming bounded solver returning the lower bound. -/
def lowerSolver : Solver ℝ := fun _ a _ => a

/-- A conforming bounded solver returning the upper bound. -/
def upperSolver : Solver ℝ := fun _ _ b => b

/-- A conforming rational bounded solver returning the lower bound. -/
def lowerSolverQ : Solver ℚ := fun _ a _ => a

/-- Valid configuration (non-negative fields, eps in (0,1]) differing from
the defaults only in the interest rate r = 1. -/
def bugCfg1 : TaxConfig := ⟨1, 12/1000, 4/1000, 1/2, 3⟩

/-- Valid configuration (non-negative fields, eps in (0,1]) with
r=0.03, tg=0.012, tp=0.009, eps=0.8, pc=8. -/
def bugCfg2 : TaxConfig := ⟨3/100, 3/250, 9/1000, 4/5, 8⟩

/-- Valid per the data model (all fields non-negative, eps in (0,1]) but
with zero interest and general tax rates. -/
def degCfg : TaxConfig := ⟨0, 0, 0, 1, 1⟩

/-- Configuration with positive interest rate but assessment ratio zero. -/
def epsZeroCfg : TaxConfig := ⟨1, 0, 0, 0, 3⟩

/-! ### Helper lemmas -/

lemma totalcost_nonneg (c : TaxConfig) (x : ℚ) (hr : 0 ≤ c.r) (htg : 0 ≤ c.tg)
    (htp : 0 ≤ c.tp) (heps : 0 ≤ c.eps) (hx : 0 ≤ x) : 0 ≤ totalcost x c := by
  show 0 ≤ c.r * x + c.tg * (x * c.eps) + c.tp * max (x * c.eps - c.pc) 0
  have h1 : 0 ≤ c.r * x := mul_nonneg hr hx
  have h2 : 0 ≤ c.tg * (x * c.eps) := mul_nonneg htg (mul_nonneg hx heps)
  have h3 : 0 ≤ c.tp * max (x * c.eps - c.pc) 0 :=
    mul_nonneg htp (le_max_right _ _)
  linarith

lemma houseprice_isSome (c : TaxConfig) (tc : ℚ) (hr : 0 < c.r) (htg : 0 ≤ c.tg)
    (htp : 0 ≤ c.tp) (heps : 0 < c.eps) : ∃ v, houseprice tc c = some v := by
  have hd1 : c.r + c.eps * (c.tg + c.tp) ≠ 0 :=
    ne_of_gt (add_pos_of_pos_of_nonneg hr (mul_nonneg heps.le (add_nonneg htg htp)))
  have hd2 : c.r + c.tg * c.eps ≠ 0 :=
    ne_of_gt (add_pos_of_pos_of_nonneg hr (mul_nonneg htg heps.le))
  unfold houseprice pydiv
  rw [if_neg heps.ne']
  by_cases h : totalcost (c.pc / c.eps) defaultCfg < tc
  · rw [if_pos h, if_neg hd1]
    exact ⟨_, rfl⟩
  · rw [if_neg h, if_neg hd2]
    exact ⟨_, rfl⟩

lemma u_max_eq_of_houseprice (S : Solver ℝ) (phi m : ℚ) (cfg : TaxConfig)
    (ub : ℚ) (hub : houseprice m cfg = some ub) :
    u_max S phi m cfg =
      some (m - totalcost (S (u_max_objective phi m cfg) 0 ub) defaultCfg,
            S (u_max_objective phi m cfg) 0 ub,
            u_func (m - totalcost (S (u_max_objective phi m cfg) 0 ub) defaultCfg)
              (S (u_max_objective phi m cfg) 0 ub) phi) := by
  unfold u_max
  rw [hub]

lemma avgtaxBody_eq (S : Solver ℝ) (phi : ℚ) (cfg : TaxConfig) (mi : ℚ)
    (hr : 0 < cfg.r) (htg : 0 ≤ cfg.tg) (htp : 0 ≤ cfg.tp) (heps : 0 < cfg.eps) :
    avgtaxBody S phi cfg mi = some (taxpaid cfg ((u_max_h S phi mi cfg).getD 0)) := by
  obtain ⟨ub, hub⟩ := houseprice_isSome cfg mi hr htg htp heps
  unfold avgtaxBody u_max_h
  rw [u_max_eq_of_houseprice S phi mi cfg ub hub]
  unfold taxpaid
  simp only [Option.map_some', Option.getD_some]
  rw [mul_comm (S (u_max_objective phi mi cfg) 0 ub) cfg.eps]

lemma avgtaxLoop_eq (S : Solver ℝ) (phi : ℚ) (cfg : TaxConfig)
    (hr : 0 < cfg.r) (htg : 0 ≤ cfg.tg) (htp : 0 ≤ cfg.tp) (heps : 0 < cfg.eps)
    (ba : List ℚ) :
    avgtaxLoop S phi cfg ba =
      some ((ba.map (fun mi => taxpaid cfg ((u_max_h S phi mi cfg).getD 0))).sum) := by
  induction ba with
  | nil => simp [avgtaxLoop]
  | cons mi rest ih =>
    have hb := avgtaxBody_eq S phi cfg mi hr htg htp heps
    simp [avgtaxLoop, hb, ih]

lemma avgtax_eq_mean (S : Solver ℝ) (ba : List ℚ) (cfg : TaxConfig)
    (hr : 0 < cfg.r) (htg : 0 ≤ cfg.tg) (htp : 0 ≤ cfg.tp) (heps : 0 < cfg.eps)
    (hba : ba ≠ []) :
    avgtax S ba cfg =
      some ((ba.map (fun mi => taxpaid cfg ((u_max_h S (3/10) mi cfg).getD 0))).sum
        / (ba.length : ℚ)) := by
  have hl := avgtaxLoop_eq S (3/10) cfg hr htg htp heps ba
  have hlen : ((ba.length : ℚ)) ≠ 0 :=
    Nat.cast_ne_zero.mpr (fun h => hba (List.length_eq_zero.mp h))
  unfold avgtax
  rw [hl]
  dsimp only
  unfold pydiv
  rw [if_neg hlen]

lemma avgtax_isSome (S : Solver ℝ) (ba : List ℚ) (cfg : TaxConfig)
    (hr : 0 < cfg.r) (htg : 0 ≤ cfg.tg) (htp : 0 ≤ cfg.tp) (heps : 0 < cfg.eps)
    (hba : ba ≠ []) : ∃ v, avgtax S ba cfg = some v :=
  ⟨_, avgtax_eq_mean S ba cfg hr htg htp heps hba⟩

/-! ### Claim theorems -/

/-- Claim C4: totalcost computes r*ph + tg*(eps*ph) + tp*max(eps*ph - pc, 0);
with the default configuration, totalcost 3 has no progressive component
(assessed value 1.5 < 3) and totalcost 10 includes the progressive term
tp*(5 - 3). -/
theorem totalcost_formula :
    (∀ (ph : ℚ) (c : TaxConfig),
      totalcost ph c = c.r * ph + c.tg * (c.eps * ph) + c.tp * max (c.eps * ph - c.pc) 0)
    ∧ totalcost 3 defaultCfg = 3/100 * 3 + 12/1000 * (3/2)
    ∧ totalcost 10 defaultCfg = 3/100 * 10 + 12/1000 * 5 + 4/1000 * (5 - 3) := by
  refine ⟨fun ph c => ?_, by norm_num [totalcost, defaultCfg, max_def],
    by norm_num [totalcost, defaultCfg, max_def]⟩
  show c.r * ph + c.tg * (ph * c.eps) + c.tp * max (ph * c.eps - c.pc) 0 = _
  rw [mul_comm ph c.eps]

/-- Claim C8: totalcost is non-decreasing in the price for every
configuration with non-negative fields. -/
theorem totalcost_mono (cfg : TaxConfig) (p1 p2 : ℚ)
    (hr : 0 ≤ cfg.r) (htg : 0 ≤ cfg.tg) (htp : 0 ≤ cfg.tp) (heps : 0 ≤ cfg.eps)
    (hpc : 0 ≤ cfg.pc) (hp1 : 0 ≤ p1) (h12 : p1 ≤ p2) :
    totalcost p1 cfg ≤ totalcost p2 cfg := by
  show cfg.r * p1 + cfg.tg * (p1 * cfg.eps) + cfg.tp * max (p1 * cfg.eps - cfg.pc) 0 ≤
       cfg.r * p2 + cfg.tg * (p2 * cfg.eps) + cfg.tp * max (p2 * cfg.eps - cfg.pc) 0
  have he : p1 * cfg.eps ≤ p2 * cfg.eps := mul_le_mul_of_nonneg_right h12 heps
  exact add_le_add (add_le_add (mul_le_mul_of_nonneg_left h12 hr)
    (mul_le_mul_of_nonneg_left he htg))
    (mul_le_mul_of_nonneg_left (max_le_max (sub_le_sub_right he cfg.pc) le_rfl) htp)

/-- Witness for totalcost_mono at the default configuration and prices 1, 2. -/
theorem totalcost_mono_witness :
    (0 : ℚ) ≤ defaultCfg.r ∧ totalcost 1 defaultCfg ≤ totalcost 2 defaultCfg :=
  ⟨by norm_num [defaultCfg], totalcost_mono defaultCfg 1 2 (by norm_num [defaultCfg])
    (by norm_num [defaultCfg]) (by norm_num [defaultCfg]) (by norm_num [defaultCfg])
    (by norm_num [defaultCfg]) (by norm_num) (by norm_num)⟩

/-- Claim C2 fails on the code: at the valid configuration bugCfg2
(r=0.03, tg=0.012, tp=0.009, eps=0.8, pc=8) and price 9.5, houseprice of
totalcost returns 249/26 (about 9.577), which is not within 1e-6 relative
tolerance of 9.5.  The cause is that line 51 computes the branch threshold
totalcost(pc/eps) with the default parameters. -/
theorem roundtrip_fails_at_bugCfg2 :
    houseprice (totalcost (19/2) bugCfg2) bugCfg2 = some (249/26)
    ∧ ¬ (|(249/26 : ℚ) - 19/2| ≤ 1/1000000 * (19/2)) := by
  constructor
  · norm_num [houseprice, pydiv, totalcost, bugCfg2, defaultCfg, max_def]
  · rw [abs_of_pos (by norm_num)]
    norm_num

/-- Claim C3 fails on the code: at cost 0.3762 under bugCfg2 the code
(threshold evaluated with the default parameters) takes the above-kink
branch and returns 249/26, while the branch rule of the specification
(threshold evaluated with the same configuration) takes the below-kink
branch and returns 9.5. -/
theorem houseprice_branch_uses_default_kink :
    houseprice (1881/5000) bugCfg2 = some (249/26)
    ∧ housepriceSpec (1881/5000) bugCfg2 = some (19/2)
    ∧ (249/26 : ℚ) ≠ 19/2 := by
  refine ⟨?_, ?_, by norm_num⟩
  · norm_num [houseprice, pydiv, totalcost, bugCfg2, defaultCfg, max_def]
  · norm_num [housepriceSpec, pydiv, totalcost, bugCfg2, defaultCfg, max_def]

/-- Claim C1 fails on the code: with the valid configuration bugCfg1
(r=1, otherwise default), budget 0.5, preference 0.3, and a conforming
bounded solver returning the upper bound, the optimizer returns
c* = 843/1750 and h* = 32/63, and |c* + totalcost(h*, cfg) - m| is about
0.493, far above 1e-6: line 88 computes c* = m - totalcost(h*) with the
default parameters instead of the configuration passed in. -/
theorem u_max_budget_identity_violation :
    (u_max upperSolver (3/10) (1/2) bugCfg1).map (fun t => (t.1, t.2.1))
      = some (843/1750, 32/63)
    ∧ ¬ (|(843/1750 : ℚ) + totalcost (32/63) bugCfg1 - 1/2| < 1/1000000) := by
  constructor
  · norm_num [u_max, houseprice, pydiv, totalcost, bugCfg1, defaultCfg, upperSolver,
      max_def]
  · have hx : (843/1750 : ℚ) + totalcost (32/63) bugCfg1 - 1/2 = 776/1575 := by
      norm_num [totalcost, bugCfg1, max_def]
    rw [hx, abs_of_pos (by norm_num)]
    norm_num

/-- Claim C6: on an empty population the aggregator divides the sum by the
population size zero, so it never returns a number (ZeroDivisionError). -/
theorem avgtax_empty_none (S : Solver ℝ) (cfg : TaxConfig) :
    avgtax S ([] : List ℚ) cfg = none := by
  simp [avgtax, avgtaxLoop, pydiv]

/-- Claim C9: avgtax exposes no preference parameter and evaluates every
household optimum with the constant default preference phi = 0.3 of u_max;
it coincides with the phi-exposing aggregator instantiated at 3/10. -/
theorem avgtax_fixes_default_phi (S : Solver ℝ) (ba : List ℚ) (cfg : TaxConfig) :
    avgtax S ba cfg = avgtaxAt S (3/10) ba cfg := rfl

/-- Counterexample to claim C5 as stated: the configuration degCfg
(r=0, tg=0, tp=0, eps=1, pc=1) is valid per the data model (all fields
non-negative, eps in (0,1]), yet on the one-household population [1] the
optimizer's bound computation divides by r + tg*eps = 0, so avgtax raises
instead of returning the arithmetic mean. -/
theorem avgtax_error_on_degenerate_valid_cfg :
    avgtax lowerSolver [(1 : ℚ)] degCfg = none := by
  norm_num [avgtax, avgtaxLoop, avgtaxBody, u_max, houseprice, pydiv, totalcost,
    degCfg, defaultCfg, lowerSolver, max_def]

/-- Claim C5 (amended with a positive interest rate, which makes every
nested optimizer call succeed): avgtax returns the arithmetic mean over the
budgets of tg*(eps*h*) + tp*max(eps*h* - pc, 0), where h* is the housing
value returned by u_max at the default preference 0.3. -/
theorem avgtax_mean_of_household_tax (S : Solver ℝ) (ba : List ℚ) (cfg : TaxConfig)
    (hr : 0 < cfg.r) (htg : 0 ≤ cfg.tg) (htp : 0 ≤ cfg.tp) (heps : 0 < cfg.eps)
    (hba : ba ≠ []) :
    avgtax S ba cfg =
      some ((ba.map (fun mi => taxpaid cfg ((u_max_h S (3/10) mi cfg).getD 0))).sum
        / (ba.length : ℚ)) :=
  avgtax_eq_mean S ba cfg hr htg htp heps hba

/-- Witness for avgtax_mean_of_household_tax on the population [1] with the
default configuration and the lower-bound solver. -/
theorem avgtax_mean_witness :
    (0 : ℚ) < defaultCfg.r ∧
    avgtax lowerSolver [(1 : ℚ)] defaultCfg =
      some ((([(1 : ℚ)]).map
        (fun mi => taxpaid defaultCfg ((u_max_h lowerSolver (3/10) mi defaultCfg).getD 0))).sum
        / (([(1 : ℚ)] : List ℚ).length : ℚ)) :=
  ⟨by norm_num [defaultCfg], avgtax_mean_of_household_tax lowerSolver [(1 : ℚ)]
    defaultCfg (by norm_num [defaultCfg]) (by norm_num [defaultCfg])
    (by norm_num [defaultCfg]) (by norm_num [defaultCfg]) (by simp)⟩

/-- Counterexample to claim C10 as stated: with r = 1 > 0 and all other
fields non-negative but eps = 0, houseprice(0) divides pc by eps = 0 and
raises instead of returning 0 (while totalcost(0) is still 0). -/
theorem houseprice_zero_fails_eps_zero :
    totalcost 0 epsZeroCfg = 0 ∧ houseprice (0 : ℚ) epsZeroCfg = none := by
  constructor
  · norm_num [totalcost, epsZeroCfg, max_def]
  · norm_num [houseprice, epsZeroCfg]

/-- Claim C10 (amended with eps > 0, forced by the eps = 0 counterexample):
for r > 0 and non-negative tg, tp, pc, zero is a fixed point:
totalcost(0) = 0 and houseprice(0) = 0. -/
theorem zero_cost_zero_price (cfg : TaxConfig) (hr : 0 < cfg.r) (htg : 0 ≤ cfg.tg)
    (htp : 0 ≤ cfg.tp) (hpc : 0 ≤ cfg.pc) (heps : 0 < cfg.eps) :
    totalcost 0 cfg = 0 ∧ houseprice 0 cfg = some 0 := by
  constructor
  · show cfg.r * 0 + cfg.tg * (0 * cfg.eps) + cfg.tp * max (0 * cfg.eps - cfg.pc) 0 = 0
    rw [zero_mul, max_eq_right (by linarith : (0 : ℚ) - cfg.pc ≤ 0)]
    ring
  · have hth : ¬ (totalcost (cfg.pc / cfg.eps) defaultCfg < 0) :=
      not_lt.2 (totalcost_nonneg defaultCfg (cfg.pc / cfg.eps)
        (by norm_num [defaultCfg]) (by norm_num [defaultCfg])
        (by norm_num [defaultCfg]) (by norm_num [defaultCfg])
        (div_nonneg hpc heps.le))
    have hd : cfg.r + cfg.tg * cfg.eps ≠ 0 :=
      ne_of_gt (add_pos_of_pos_of_nonneg hr (mul_nonneg htg heps.le))
    unfold houseprice pydiv
    rw [if_neg heps.ne', if_neg hth, if_neg hd, zero_div]

/-- Witness for zero_cost_zero_price at the default configuration. -/
theorem zero_cost_zero_price_witness :
    (0 : ℚ) < defaultCfg.r ∧
    (totalcost 0 defaultCfg = 0 ∧ houseprice 0 defaultCfg = some 0) :=
  ⟨by norm_num [defaultCfg], zero_cost_zero_price defaultCfg
    (by norm_num [defaultCfg]) (by norm_num [defaultCfg]) (by norm_num [defaultCfg])
    (by norm_num [defaultCfg]) (by norm_num [defaultCfg])⟩

/-- Claim C7: if the bounded solver behind tg_finder returns a point of
[0,1] that does at least as well as an achieving rate tg0 (its contract as
a bounded minimizer), and the target is achievable at tg0 in [0,1], then
the calibrated rate lies in [0,1] and avgtax at it hits the target. -/
theorem tg_finder_calibrates (S : Solver ℝ) (T : Solver ℚ) (ba : List ℚ)
    (target r tp eps pc tg0 : ℚ)
    (hba : ba ≠ []) (hr : 0 < r) (htp : 0 ≤ tp) (heps : 0 < eps)
    (htg0 : 0 ≤ tg0) (htg0' : tg0 ≤ 1)
    (hach : avgtax S ba ⟨r, tg0, tp, eps, pc⟩ = some target)
    (hlo : 0 ≤ tg_finder S T ba target r tp eps pc)
    (hhi : tg_finder S T ba target r tp eps pc ≤ 1)
    (hopt : tgObjective S ba target r tp eps pc (tg_finder S T ba target r tp eps pc)
          ≤ tgObjective S ba target r tp eps pc tg0) :
    0 ≤ tg_finder S T ba target r tp eps pc
    ∧ tg_finder S T ba target r tp eps pc ≤ 1
    ∧ avgtax S ba ⟨r, tg_finder S T ba target r tp eps pc, tp, eps, pc⟩ = some target := by
  refine ⟨hlo, hhi, ?_⟩
  obtain ⟨v, hv⟩ := avgtax_isSome S ba
    ⟨r, tg_finder S T ba target r tp eps pc, tp, eps, pc⟩ hr hlo htp heps hba
  have h0 : tgObjective S ba target r tp eps pc tg0 = 0 := by
    unfold tgObjective
    rw [hach]
    simp
  have h1 : tgObjective S ba target r tp eps pc (tg_finder S T ba target r tp eps pc)
      = |target - v| := by
    unfold tgObjective
    rw [hv]
  have h2 : |target - v| ≤ 0 := by
    rw [← h1, ← h0]
    exact hopt
  have h3 : target = v := by
    have h4 : |target - v| = 0 := le_antisymm h2 (abs_nonneg _)
    have h5 := abs_eq_zero.mp h4
    linarith [sub_eq_zero.mp h5]
  rw [hv]
  exact congrArg some h3.symm

/-- Witness for tg_finder_calibrates: population [1], target 0 (achieved at
tg0 = 0 because the lower-bound solver picks h* = 0, so no tax is paid),
calibration solver returning the lower bound 0. -/
theorem tg_finder_calibrates_witness :
    avgtax lowerSolver [(1 : ℚ)] (⟨3/100, 0, 9/1000, 4/5, 8⟩ : TaxConfig) = some 0 ∧
    (0 ≤ tg_finder lowerSolver lowerSolverQ [(1 : ℚ)] 0 (3/100) (9/1000) (4/5) 8
     ∧ tg_finder lowerSolver lowerSolverQ [(1 : ℚ)] 0 (3/100) (9/1000) (4/5) 8 ≤ 1
     ∧ avgtax lowerSolver [(1 : ℚ)]
        ⟨3/100, tg_finder lowerSolver lowerSolverQ [(1 : ℚ)] 0 (3/100) (9/1000) (4/5) 8,
         9/1000, 4/5, 8⟩ = some 0) :=
  ⟨by norm_num [avgtax, avgtaxLoop, avgtaxBody, u_max, houseprice, pydiv, totalcost,
      defaultCfg, lowerSolver, max_def],
   tg_finder_calibrates lowerSolver lowerSolverQ [(1 : ℚ)] 0 (3/100)
    (9/1000) (4/5) 8 0 (by simp) (by norm_num) (by norm_num) (by norm_num)
    (by norm_num) (by norm_num)
    (by norm_num [avgtax, avgtaxLoop, avgtaxBody, u_max, houseprice, pydiv, totalcost,
      defaultCfg, lowerSolver, max_def])
    (by norm_num [tg_finder, lowerSolverQ]) (by norm_num [tg_finder, lowerSolverQ])
    (le_of_eq rfl)⟩

end Inaugural
